import Mathlib

/-
Verification of the adaptive / agentic RAG workflows in LangGraph-Examples.

The development shallowly embeds the two workflow topologies of the
repository:

* the router-first topology of `src/proj1-adaptive-rag` (`graph_nodes.py`,
  `graph_edges.py`, wiring from `AdaptiveRAGWorkflow.build_graph` in
  `workflow.py`), and
* the agent-first topology of `src/proj2-agentiic-rag`
  (`agentic_rag_project/src/nodes.py`, state declaration in
  `agentic_rag_project/src/workflow.py`).

External LLM / retrieval collaborators are opaque function parameters
(gathered in `Collab` and `ACollab`); the node and edge bodies are the
repository's own logic.
-/

namespace LG

/-- A LangChain `Document`: `page_content` plus the optional
`source` locator kept in metadata (`content`/`source` in the spec). -/
structure Document where
  content : String
  source : Option String
deriving DecidableEq, Repr

/-- The `documents` field of the proj1 graph state.  The Python code is
duck-typed: `retrieve` and `grade_documents` store a *list* of documents,
while `web_search` stores the single `Document` returned by
`ToolManager.search_web` (`graph_nodes.py`, `return {"documents": web_results, ...}`).
Both shapes flow through the same state field. -/
inductive DocsField where
  | dlist (ds : List Document)
  | dsingle (d : Document)
deriving DecidableEq, Repr

/-- Python truthiness test `not filtered_documents` used by
`GraphEdges.decide_to_generate`: an empty list is falsy, a non-empty list
and a bare `Document` object are truthy. -/
def DocsField.isEmptyPy : DocsField → Bool
  | .dlist [] => true
  | .dlist (_ :: _) => false
  | .dsingle _ => false

/-- `models.GraphState` of proj1: `question`, `documents`, `generation`.
`generation` is absent until a generate step has run, hence `Option`. -/
structure GraphState where
  question : String
  documents : DocsField
  generation : Option String
deriving DecidableEq, Repr

/-- `models.RouteQuery.datasource` — a pydantic `Literal` with exactly the
two values `"vectorstore"` and `"web_search"`. -/
inductive Datasource where
  | vectorstore
  | webSearch
deriving DecidableEq, Repr

/-- The external collaborators of proj1, as invoked by `GraphNodes` and
`GraphEdges`.  Graders return the raw `binary_score : str` of their
pydantic models (the field is declared `str`, not `Literal`, so any
string can come back; the code only ever compares it to `"yes"`). -/
structure Collab where
  router : String → Datasource
  retriever : String → List Document
  ragChain : DocsField → String → String
  relGrader : String → String → String
  rewriter : String → String
  hallGrader : DocsField → String → String
  ansGrader : String → String → String
  webTool : String → Document

/-- `GraphNodes.retrieve`: `documents := retriever.invoke(question)`,
question passed through, other fields untouched. -/
def retrieveNode (c : Collab) (st : GraphState) : GraphState :=
  { st with documents := .dlist (c.retriever st.question) }

/-- `GraphNodes.generate`: `generation := rag_chain.invoke({context: documents, question})`,
documents and question passed through unchanged. -/
def generateNode (c : Collab) (st : GraphState) : GraphState :=
  { st with generation := some (c.ragChain st.documents st.question) }

/-- The `for d in documents` loop of `GraphNodes.grade_documents`: keeps
the documents whose relevance grade is `"yes"`, in order, and also counts
how many times `retrieval_grader.invoke` is called (once per document). -/
def gradeLoop (c : Collab) (q : String) : List Document → List Document × Nat
  | [] => ([], 0)
  | d :: ds =>
    let r := gradeLoop c q ds
    if c.relGrader q d.content = "yes" then (d :: r.1, r.2 + 1) else (r.1, r.2 + 1)

/-- `GraphNodes.grade_documents`: replaces `documents` with the filtered
list.  Iterating `for d in documents` over a bare `Document` (the
`web_search` shape) would raise a `TypeError`, modelled as `none`. -/
def gradeDocumentsNode (c : Collab) (st : GraphState) : Option GraphState :=
  match st.documents with
  | .dlist ds => some { st with documents := .dlist (gradeLoop c st.question ds).1 }
  | .dsingle _ => none

/-- `GraphNodes.transform_query`: `question := question_rewriter.invoke({question})`,
documents passed through unchanged. -/
def transformQueryNode (c : Collab) (st : GraphState) : GraphState :=
  { st with question := c.rewriter st.question }

/-- `GraphNodes.web_search`: `documents := tool_manager.search_web(question)` —
note the single `Document`, not a list. -/
def webSearchNode (c : Collab) (st : GraphState) : GraphState :=
  { st with documents := .dsingle (c.webTool st.question) }

/-- `GraphEdges.route_question`: maps the pydantic-validated datasource to
the edge label string. -/
def routeQuestion (c : Collab) (q : String) : String :=
  match c.router q with
  | .webSearch => "web_search"
  | .vectorstore => "vectorstore"

/-- `GraphEdges.decide_to_generate`: `"transform_query"` when
`state.get("documents", [])` is falsy, `"generate"` otherwise. -/
def decideToGenerate (st : GraphState) : String :=
  if st.documents.isEmptyPy then "transform_query" else "generate"

/-- `GraphEdges.grade_generation_v_documents_and_question`: hallucination
check first, then answer-quality check; accessing `state["generation"]`
before any generate step would raise a `KeyError`, modelled as `none`. -/
def gradeGenLabel (c : Collab) (st : GraphState) : Option String :=
  match st.generation with
  | none => none
  | some gen =>
    if c.hallGrader st.documents gen = "yes" then
      if c.ansGrader st.question gen = "yes" then some "useful" else some "not useful"
    else some "not supported"

/-- `GraphEdges.should_continue_retrieval`: the iteration-limiting helper.
`build_graph` never registers it, and `GraphState` has no `iterations`
field, so `state.get("iterations", 0)` is always `0` at any call site. -/
def shouldContinueRetrieval (iterations maxIterations : Nat) : String :=
  if iterations ≥ maxIterations then "stop" else "continue"

/-- Positions of the router-first machine: the five registered nodes of
`build_graph`, plus the `START` and `END` pseudo-steps. -/
inductive RPos where
  | entry
  | websearchN
  | retrieveN
  | gradeN
  | generateN
  | transformN
  | doneP
deriving DecidableEq, Repr

/-- The `START` conditional edge's path map from `build_graph`:
`web_search → web_search`, `vectorstore → retrieve`. -/
def entryPathMap (l : String) : Option RPos :=
  if l = "web_search" then some .websearchN
  else if l = "vectorstore" then some .retrieveN
  else none

/-- The `grade_documents` conditional edge's path map from `build_graph`. -/
def gradePathMap (l : String) : Option RPos :=
  if l = "transform_query" then some .transformN
  else if l = "generate" then some .generateN
  else none

/-- The `generate` conditional edge's path map from `build_graph`:
`not supported → generate`, `useful → END`, `not useful → transform_query`. -/
def generatePathMap (l : String) : Option RPos :=
  if l = "not supported" then some .generateN
  else if l = "useful" then some .doneP
  else if l = "not useful" then some .transformN
  else none

/-- The engine faults of spec §7 that the embedding distinguishes. -/
inductive EngineFault where
  | configurationFault
deriving DecidableEq, Repr

/-- Modelled from the spec: the conditional-edge resolution of the Engine
(spec §4.4/§7) — the executor itself is the LangGraph library, not part of
this repository.  A label missing from the path map is a fatal
`ConfigurationFault`; a declared label resolves to its mapped node. -/
def resolveConditional (pm : String → Option RPos) (l : String) : Except EngineFault RPos :=
  match pm l with
  | some p => .ok p
  | none => .error .configurationFault

/-- Modelled from the spec: one step of the Engine execution loop
(spec §4.4) over the router-first wiring of
`AdaptiveRAGWorkflow.build_graph`.  Executes the node at the current
position, merges its patch (field overwrite), and resolves the next
position; `none` models a Python runtime error inside a node or edge.
`doneP` is absorbing. -/
def rStep (c : Collab) : RPos × GraphState → Option (RPos × GraphState)
  | (.entry, st) => (entryPathMap (routeQuestion c st.question)).map (fun p => (p, st))
  | (.websearchN, st) => some (.generateN, webSearchNode c st)
  | (.retrieveN, st) => some (.gradeN, retrieveNode c st)
  | (.gradeN, st) =>
    (gradeDocumentsNode c st).bind (fun st1 =>
      (gradePathMap (decideToGenerate st1)).map (fun p => (p, st1)))
  | (.transformN, st) => some (.retrieveN, transformQueryNode c st)
  | (.generateN, st) =>
    let st1 := generateNode c st
    (gradeGenLabel c st1).bind (fun l =>
      (generatePathMap l).map (fun p => (p, st1)))
  | (.doneP, st) => some (.doneP, st)

/-- The initial state of a run: `inputs = {"question": question}` — no
documents, no generation yet (`documents` starts as the falsy default that
`state.get("documents", [])` would produce). -/
def initState (q : String) : GraphState :=
  { question := q, documents := .dlist [], generation := none }

/-- `n` engine steps from `START` on the caller's question. -/
def riter (c : Collab) (q : String) : Nat → Option (RPos × GraphState)
  | 0 => some (.entry, initState q)
  | n + 1 => (riter c q n).bind (rStep c)

/-- One raw Tavily search hit as consumed by
`WebSearchTool._format_results`: a `content` and a `url` entry. -/
structure RawResult where
  content : String
  url : String
deriving DecidableEq, Repr

/-- The numbered formatting of `WebSearchTool._format_results`
(`enumerate(results, 1)` over the hits). -/
def formatNumbered : Nat → List RawResult → List String
  | _, [] => []
  | i, r :: rs =>
    ("结果 " ++ toString i ++ ":\n" ++ r.content ++ "\n来源: " ++ r.url) ::
      formatNumbered (i + 1) rs

/-- `WebSearchTool._format_results`: join the per-hit blocks with blank
lines. -/
def formatResults (rs : List RawResult) : String :=
  String.intercalate "\n\n" (formatNumbered 1 rs)

namespace WebSearchTool

/-- `WebSearchTool.search`, applied to the raw hits the Tavily call
returned: a single `Document` whose `page_content` is the formatted
concatenation; no metadata (hence no `source`) is set. -/
def search (rs : List RawResult) : Document :=
  { content := formatResults rs, source := none }

end WebSearchTool

/-- Modelled from the spec: the full StateRecord of spec §3, uniting the
fields observed across both topologies (`question`, `documents`,
`generation` from proj1's `GraphState`; `messages` from proj2's
`AgentState`). -/
structure StateRecord where
  question : String
  documents : List Document
  generation : Option String
  messages : List String
deriving DecidableEq, Repr

/-- Modelled from the spec: a StateRecordPatch names only the fields it
changes (`none` / `[]` = field absent from the patch). -/
structure StateRecordPatch where
  question : Option String := none
  documents : Option (List Document) := none
  generation : Option String := none
  messages : List String := []
deriving DecidableEq, Repr

/-- Modelled from the spec: the Engine's patch merge (spec §3 invariant) —
the merge itself lives in the LangGraph library, not in this repository.
Its semantics follows the state declarations in the source: `question`,
`documents`, `generation` are plain channels (last-writer-wins overwrite,
the default for proj1's `GraphState`), while `messages` is declared
`Annotated[Sequence[BaseMessage], add_messages]` in proj2's `AgentState`,
i.e. appended. -/
def applyPatch (r : StateRecord) (p : StateRecordPatch) : StateRecord :=
  { question := p.question.getD r.question
    documents := p.documents.getD r.documents
    generation := match p.generation with
      | some g => some g
      | none => r.generation
    messages := r.messages ++ p.messages }

/-- A transcript message of the agent-first topology; only its `content`
is inspected by the nodes. -/
structure Msg where
  content : String
deriving DecidableEq, Repr

/-- The external collaborators of proj2's `AgentNodes`. -/
structure ACollab where
  graderLLM : String → String → String
  rewriterLLM : String → String
  ragGen : String → String → String

/-- `messages[0].content` — the question extraction shared by
`AgentNodes.grade_documents`, `AgentNodes.rewrite` and
`AgentNodes.generate`; `none` models the `IndexError` on an empty
transcript. -/
def questionOfA (msgs : List Msg) : Option String :=
  (msgs[0]?).map Msg.content

/-- `messages[-1].content` — the evidence extraction of
`AgentNodes.grade_documents` and `AgentNodes.generate`. -/
def lastContentA (msgs : List Msg) : Option String :=
  msgs.getLast?.map Msg.content

/-- `AgentNodes.grade_documents`: grade `messages[0].content` against
`messages[-1].content`, deciding `"generate"` on `"yes"` and `"rewrite"`
otherwise. -/
def gradeDocumentsA (c : ACollab) (msgs : List Msg) : Option String :=
  match questionOfA msgs, lastContentA msgs with
  | some q, some d =>
    some (if c.graderLLM q d = "yes" then "generate" else "rewrite")
  | _, _ => none

/-- `AgentNodes.rewrite`: rewrite `messages[0].content` and return the
patch `{"messages": [response]}`. -/
def rewriteA (c : ACollab) (msgs : List Msg) : Option (List Msg) :=
  (questionOfA msgs).map (fun q => [⟨c.rewriterLLM q⟩])

/-- `AgentNodes.generate`: run the RAG chain on `messages[-1].content` as
context and `messages[0].content` as question, returning the patch
`{"messages": [response]}`. -/
def generateA (c : ACollab) (msgs : List Msg) : Option (List Msg) :=
  match questionOfA msgs, lastContentA msgs with
  | some q, some d => some [⟨c.ragGen d q⟩]
  | _, _ => none

/-- The `add_messages` merge of proj2's `AgentState`: a messages patch is
appended to the transcript. -/
def applyMsgPatch (msgs patch : List Msg) : List Msg :=
  msgs ++ patch

/-- Collaborator stub for the iteration-budget scenario of spec §8:
the route classifier picks the vector store, retrieval returns one
document, the relevance grade is `"yes"`, and the groundedness grader
always answers `"no"` (never grounded). -/
def cStub1 : Collab :=
  { router := fun _ => .vectorstore
    retriever := fun _ => [⟨"doc", none⟩]
    ragChain := fun _ _ => "ans"
    relGrader := fun _ _ => "yes"
    rewriter := fun q => q
    hallGrader := fun _ _ => "no"
    ansGrader := fun _ _ => "yes"
    webTool := fun _ => ⟨"w", none⟩ }

/-- The state the `cStub1` run is stuck at from the fourth step on. -/
def sFix1 : GraphState :=
  { question := "q", documents := .dlist [⟨"doc", none⟩], generation := some "ans" }

/-- Collaborator stub whose relevance grader rejects every document and
whose rewriter visibly changes the question. -/
def cStub2 : Collab :=
  { router := fun _ => .vectorstore
    retriever := fun q => [⟨q, none⟩]
    ragChain := fun _ _ => "ans"
    relGrader := fun _ _ => "no"
    rewriter := fun q => q ++ "+"
    hallGrader := fun _ _ => "yes"
    ansGrader := fun _ _ => "yes"
    webTool := fun _ => ⟨"w", none⟩ }

/-- Collaborator stub whose two generation graders both answer `"yes"`. -/
def cStub3 : Collab :=
  { router := fun _ => .vectorstore
    retriever := fun _ => [⟨"doc", none⟩]
    ragChain := fun _ _ => "ans"
    relGrader := fun _ _ => "yes"
    rewriter := fun q => q
    hallGrader := fun _ _ => "yes"
    ansGrader := fun _ _ => "yes"
    webTool := fun _ => ⟨"w", none⟩ }

/-- Collaborator stub whose groundedness grader answers `"no"` once more,
for the regeneration frame property. -/
def cStub4 : Collab :=
  { router := fun _ => .vectorstore
    retriever := fun _ => [⟨"d4", none⟩]
    ragChain := fun _ _ => "a4"
    relGrader := fun _ _ => "yes"
    rewriter := fun q => q
    hallGrader := fun _ _ => "no"
    ansGrader := fun _ _ => "yes"
    webTool := fun _ => ⟨"w", none⟩ }

/-- Collaborator stub whose generator returns the empty string while both
generation graders accept. -/
def cStub7 : Collab :=
  { router := fun _ => .vectorstore
    retriever := fun _ => [⟨"doc", none⟩]
    ragChain := fun _ _ => ""
    relGrader := fun _ _ => "yes"
    rewriter := fun q => q
    hallGrader := fun _ _ => "yes"
    ansGrader := fun _ _ => "yes"
    webTool := fun _ => ⟨"w", none⟩ }

/-- Agent-first collaborator stub with a rewriter that visibly changes the
question. -/
def cStub10 : ACollab :=
  { graderLLM := fun _ _ => "yes"
    rewriterLLM := fun q => q ++ "+"
    ragGen := fun _ q => q }

/-- A concrete running StateRecord for exercising the merge law. -/
def rStub5 : StateRecord :=
  { question := "q1", documents := [], generation := some "g1", messages := ["m1"] }

/-- A concrete patch naming all three overwrite fields and a message. -/
def pStub5 : StateRecordPatch :=
  { question := some "q2"
    documents := some [⟨"d2", none⟩]
    generation := some "g2"
    messages := ["m2"] }

/-- The grading loop of `GraphNodes.grade_documents` is `List.filter` on
the relevance grade, and it calls the grader exactly once per document. -/
theorem gradeLoop_eq (c : Collab) (q : String) (ds : List Document) :
    gradeLoop c q ds =
      (ds.filter (fun d => c.relGrader q d.content = "yes"), ds.length) := by
  induction ds with
  | nil => rfl
  | cons d ds ih =>
    simp only [gradeLoop, ih, List.filter, List.length_cons]
    by_cases h : c.relGrader q d.content = "yes" <;> simp [h]

/-- `WebSearchTool._format_results` produces one text block per raw hit. -/
theorem formatNumbered_length (rs : List RawResult) :
    ∀ i, (formatNumbered i rs).length = rs.length := by
  induction rs with
  | nil => intro i; rfl
  | cons r rs ih => intro i; simp [formatNumbered, ih]

/-- From the fourth step on, the `cStub1` run sits at the `generate` node
in the fixed state `sFix1`. -/
theorem riter_cStub1_fix : ∀ k, riter cStub1 "q" (k + 4) = some (.generateN, sFix1) := by
  intro k
  induction k with
  | zero => decide
  | succ k ih =>
    show (riter cStub1 "q" (k + 4)).bind (rStep cStub1) = _
    rw [ih]
    decide

/-- Claim C1: the compiled router-first graph enforces no step budget.
With a groundedness grader that always answers `"no"`, the run is never at
`END` after any number of engine steps: it loops `generate → generate`
forever, so no `maxSteps` bound is enforced and no `BudgetExhausted`
outcome exists.  `should_continue_retrieval` is defined but never wired
into `build_graph`. -/
theorem iteration_budget_not_enforced :
    ∀ n : Nat, ∃ p st, riter cStub1 "q" n = some (p, st) ∧ p ≠ RPos.doneP := by
  intro n
  match n with
  | 0 => exact ⟨.entry, initState "q", by decide, by decide⟩
  | 1 => exact ⟨.retrieveN, initState "q", by decide, by decide⟩
  | 2 => exact ⟨.gradeN, { initState "q" with documents := .dlist [⟨"doc", none⟩] },
      by decide, by decide⟩
  | 3 => exact ⟨.generateN, { initState "q" with documents := .dlist [⟨"doc", none⟩] },
      by decide, by decide⟩
  | (k + 4) => exact ⟨.generateN, sFix1, riter_cStub1_fix k, by decide⟩

/-- Claim C2: `decide_to_generate` returns `"transform_query"` exactly
when the filtered document list is empty and `"generate"` otherwise; and
when the relevance grader rejects every retrieved document, the engine
goes `retrieve → grade_documents → transform_query → retrieve`, the
re-issued retrieval being called with the rewritten question. -/
theorem grade_documents_decision_and_rewrite_retrieval
    (c : Collab) (q : String) (gen : Option String) (ds : List Document)
    (st : GraphState)
    (hall : ∀ d ∈ c.retriever st.question, c.relGrader st.question d.content ≠ "yes") :
    ((decideToGenerate ⟨q, .dlist ds, gen⟩ = "transform_query" ↔ ds = []) ∧
     (decideToGenerate ⟨q, .dlist ds, gen⟩ = "generate" ↔ ds ≠ [])) ∧
    rStep c (.retrieveN, st) = some (.gradeN, retrieveNode c st) ∧
    rStep c (.gradeN, retrieveNode c st) =
      some (.transformN, { st with documents := .dlist [] }) ∧
    rStep c (.transformN, { st with documents := .dlist [] }) =
      some (.retrieveN,
        { st with question := c.rewriter st.question, documents := .dlist [] }) ∧
    rStep c (.retrieveN,
        { st with question := c.rewriter st.question, documents := .dlist [] }) =
      some (.gradeN,
        { st with question := c.rewriter st.question,
                  documents := .dlist (c.retriever (c.rewriter st.question)) }) := by
  have hfilter : (c.retriever st.question).filter
      (fun d => c.relGrader st.question d.content = "yes") = [] := by
    rw [List.filter_eq_nil_iff]
    intro d hd
    simpa using hall d hd
  refine ⟨⟨?_, ?_⟩, rfl, ?_, rfl, rfl⟩
  · cases ds <;> simp [decideToGenerate, DocsField.isEmptyPy]
  · cases ds <;> simp [decideToGenerate, DocsField.isEmptyPy]
  · simp [rStep, retrieveNode, gradeDocumentsNode, gradeLoop_eq, hfilter,
      decideToGenerate, DocsField.isEmptyPy, gradePathMap]

/-- Witness for C2 at `cStub2` and question `"q0"`: the re-issued
retrieval runs on the rewritten question `"q0+"`. -/
theorem grade_documents_decision_and_rewrite_retrieval_witness :
    rStep cStub2 (.retrieveN,
      { initState "q0" with question := cStub2.rewriter "q0", documents := .dlist [] }) =
      some (.gradeN,
        { initState "q0" with question := cStub2.rewriter "q0",
                              documents := .dlist (cStub2.retriever (cStub2.rewriter "q0")) }) :=
  (grade_documents_decision_and_rewrite_retrieval cStub2 "x" none [] (initState "q0")
    (by decide)).2.2.2.2

/-- Claim C3: after a `generate` step, with binary grader verdicts, the
engine goes back to `generate` exactly when the groundedness grade is
`"no"`, to `transform_query` exactly when grounded but the answer grade is
`"no"`, and to `END` exactly when both grades are `"yes"`. -/
theorem generate_decision_two_stage (c : Collab) (st : GraphState)
    (hh : c.hallGrader st.documents (c.ragChain st.documents st.question) = "yes" ∨
          c.hallGrader st.documents (c.ragChain st.documents st.question) = "no")
    (ha : c.ansGrader st.question (c.ragChain st.documents st.question) = "yes" ∨
          c.ansGrader st.question (c.ragChain st.documents st.question) = "no") :
    (rStep c (.generateN, st) = some (.generateN, generateNode c st) ↔
      c.hallGrader st.documents (c.ragChain st.documents st.question) = "no") ∧
    (rStep c (.generateN, st) = some (.transformN, generateNode c st) ↔
      (c.hallGrader st.documents (c.ragChain st.documents st.question) = "yes" ∧
       c.ansGrader st.question (c.ragChain st.documents st.question) = "no")) ∧
    (rStep c (.generateN, st) = some (.doneP, generateNode c st) ↔
      (c.hallGrader st.documents (c.ragChain st.documents st.question) = "yes" ∧
       c.ansGrader st.question (c.ragChain st.documents st.question) = "yes")) := by
  rcases hh with hh | hh <;> rcases ha with ha | ha <;>
    simp [rStep, gradeGenLabel, generateNode, generatePathMap, hh, ha]

/-- Witness for C3 at `cStub3`, whose graders both answer `"yes"`. -/
theorem generate_decision_two_stage_witness :
    rStep cStub3 (.generateN, initState "q") =
        some (.doneP, generateNode cStub3 (initState "q")) ↔
      (cStub3.hallGrader (initState "q").documents
          (cStub3.ragChain (initState "q").documents (initState "q").question) = "yes" ∧
       cStub3.ansGrader (initState "q").question
          (cStub3.ragChain (initState "q").documents (initState "q").question) = "yes") :=
  (generate_decision_two_stage cStub3 (initState "q")
    (Or.inl (by decide)) (Or.inl (by decide))).2.2

/-- Claim C4: when the groundedness grade is `"no"`, the engine routes
`generate → generate`, and the regenerated state carries the very same
`documents` field — no retrieval is triggered. -/
theorem regenerate_keeps_documents (c : Collab) (st : GraphState)
    (h : c.hallGrader st.documents (c.ragChain st.documents st.question) = "no") :
    rStep c (.generateN, st) = some (.generateN, generateNode c st) ∧
    (generateNode c st).documents = st.documents := by
  constructor
  · simp [rStep, gradeGenLabel, generateNode, generatePathMap, h]
  · rfl

/-- Witness for C4 at `cStub4`, whose groundedness grader answers `"no"`. -/
theorem regenerate_keeps_documents_witness :
    rStep cStub4 (.generateN, initState "q") =
      some (.generateN, generateNode cStub4 (initState "q")) ∧
    (generateNode cStub4 (initState "q")).documents = (initState "q").documents :=
  regenerate_keeps_documents cStub4 (initState "q") (by decide)

/-- Claim C5: for every state and every patch, merging overwrites exactly
the fields the patch names — a named `question`, `documents` or
`generation` is overwritten with the patch's value, an unnamed field is
left untouched, and `messages` is appended — and in particular a patch
containing only `documents := D2` maps `(Q, D, G, M)` to `(Q, D2, G, M)`. -/
theorem patch_merge_law (r : StateRecord) (p : StateRecordPatch)
    (Q G : String) (D : List Document)
    (Q1 : String) (D1 D2 : List Document) (G1 : Option String) (M1 : List String) :
    (p.question = some Q → (applyPatch r p).question = Q) ∧
    (p.documents = some D → (applyPatch r p).documents = D) ∧
    (p.generation = some G → (applyPatch r p).generation = some G) ∧
    (p.question = none → (applyPatch r p).question = r.question) ∧
    (p.documents = none → (applyPatch r p).documents = r.documents) ∧
    (p.generation = none → (applyPatch r p).generation = r.generation) ∧
    ((applyPatch r p).messages = r.messages ++ p.messages) ∧
    (applyPatch ⟨Q1, D1, G1, M1⟩ { documents := some D2 } = ⟨Q1, D2, G1, M1⟩) := by
  refine ⟨?_, ?_, ?_, ?_, ?_, ?_, rfl, by simp [applyPatch]⟩ <;>
    intro h <;> simp [applyPatch, h]

/-- Witness for C5 at the concrete state `rStub5` and the multi-field
patch `pStub5`: all three named fields are overwritten, the message is
appended, and the documents-only merge law holds at concrete values. -/
theorem patch_merge_law_witness :
    (applyPatch rStub5 pStub5).question = "q2" ∧
    (applyPatch rStub5 pStub5).documents = [⟨"d2", none⟩] ∧
    (applyPatch rStub5 pStub5).generation = some "g2" ∧
    (applyPatch rStub5 pStub5).messages = rStub5.messages ++ pStub5.messages ∧
    applyPatch ⟨"q1", [], some "g1", ["m1"]⟩ { documents := some [⟨"d2", none⟩] } =
      ⟨"q1", [⟨"d2", none⟩], some "g1", ["m1"]⟩ := by
  have h := patch_merge_law rStub5 pStub5 "q2" "g2" [⟨"d2", none⟩]
    "q1" [] [⟨"d2", none⟩] (some "g1") ["m1"]
  exact ⟨h.1 (by decide), h.2.1 (by decide), h.2.2.1 (by decide),
    h.2.2.2.2.2.2.1, h.2.2.2.2.2.2.2⟩

/-- Claim C6: `grade_documents` calls the relevance grader once per
document and replaces `documents` wholesale with the filtered sublist —
exactly the documents graded `"yes"`, unmodified, in order, nothing
appended. -/
theorem grade_documents_filters_wholesale (c : Collab) (q : String)
    (gen : Option String) (ds : List Document) :
    gradeDocumentsNode c ⟨q, .dlist ds, gen⟩ =
      some ⟨q, .dlist (ds.filter (fun d => c.relGrader q d.content = "yes")), gen⟩ ∧
    (gradeLoop c q ds).2 = ds.length ∧
    (ds.filter (fun d => c.relGrader q d.content = "yes")).Sublist ds := by
  refine ⟨?_, ?_, List.filter_sublist ds⟩
  · simp [gradeDocumentsNode, gradeLoop_eq]
  · simp [gradeLoop_eq]

/-- Counterexample to C7 as stated: with a generator that returns the
empty string and graders that accept it, the run reaches `END` ("ok")
after four steps with `generation = some ""` — an empty final answer. -/
theorem ok_run_with_empty_generation :
    riter cStub7 "q" 4 =
      some (.doneP,
        { question := "q", documents := .dlist [⟨"doc", none⟩], generation := some "" }) := by
  decide

/-- Claim C7 (amended): any engine transition into `END` comes from the
`generate` node, and the final state's `generation` is exactly the answer
that last `generate` execution produced (no non-emptiness is enforced). -/
theorem final_generation_from_last_generate (c : Collab) (p : RPos)
    (st st2 : GraphState)
    (hp : p ≠ .doneP) (h : rStep c (p, st) = some (.doneP, st2)) :
    p = .generateN ∧ st2 = generateNode c st ∧
    st2.generation = some (c.ragChain st.documents st.question) := by
  cases p with
  | entry =>
    exfalso
    simp only [rStep, routeQuestion] at h
    rcases hc : c.router st.question with _ | _ <;>
      simp [hc, entryPathMap] at h
  | websearchN => simp [rStep] at h
  | retrieveN => simp [rStep] at h
  | gradeN =>
    exfalso
    simp only [rStep] at h
    rcases hg : gradeDocumentsNode c st with _ | st1
    · simp [hg] at h
    · rcases hb : st1.documents.isEmptyPy <;>
        simp [hg, gradePathMap, decideToGenerate, hb] at h
  | transformN => simp [rStep] at h
  | generateN =>
    have hst : st2 = generateNode c st := by
      by_cases hh : c.hallGrader st.documents (c.ragChain st.documents st.question) = "yes" <;>
        by_cases ha : c.ansGrader st.question (c.ragChain st.documents st.question) = "yes" <;>
        simp [rStep, gradeGenLabel, generateNode, generatePathMap, hh, ha] at h
      simp [generateNode, h]
    refine ⟨rfl, hst, ?_⟩
    rw [hst]
    rfl
  | doneP => exact absurd rfl hp

/-- Witness for the amended C7 at the `cStub7` run: the accepting
transition comes from `generate` and carries its (empty) answer. -/
theorem final_generation_from_last_generate_witness :
    RPos.generateN = RPos.generateN ∧
    ({ question := "q", documents := .dlist [⟨"doc", none⟩],
       generation := some "" } : GraphState) =
      generateNode cStub7
        { question := "q", documents := .dlist [⟨"doc", none⟩], generation := none } ∧
    (({ question := "q", documents := .dlist [⟨"doc", none⟩],
        generation := some "" } : GraphState)).generation =
      some (cStub7.ragChain (DocsField.dlist [⟨"doc", none⟩]) "q") :=
  final_generation_from_last_generate cStub7 .generateN
    { question := "q", documents := .dlist [⟨"doc", none⟩], generation := none }
    { question := "q", documents := .dlist [⟨"doc", none⟩], generation := some "" }
    (by decide) (by decide)

/-- Claim C8: a Router label outside the statically declared set of the
entry decision point resolves to a fatal `ConfigurationFault` — the engine
never silently picks a default edge. -/
theorem undeclared_label_fatal (l : String)
    (h1 : l ≠ "web_search") (h2 : l ≠ "vectorstore") :
    resolveConditional entryPathMap l = .error .configurationFault ∧
    ∀ p : RPos, resolveConditional entryPathMap l ≠ .ok p := by
  have hm : entryPathMap l = none := by simp [entryPathMap, h1, h2]
  constructor
  · simp [resolveConditional, hm]
  · intro p
    simp [resolveConditional, hm]

/-- Witness for C8 at the undeclared label `"database"`. -/
theorem undeclared_label_fatal_witness :
    resolveConditional entryPathMap "database" = .error .configurationFault ∧
    ∀ p : RPos, resolveConditional entryPathMap "database" ≠ .ok p :=
  undeclared_label_fatal "database" (by decide) (by decide)

/-- Counterexample to C9 as stated: `WebSearchTool.search` leaves the
`source` field of the Document it returns unpopulated (the URLs are only
embedded in the page content text), here on one concrete search hit. -/
theorem web_search_source_unpopulated :
    (WebSearchTool.search [⟨"c1", "http://a"⟩]).source = none := rfl

/-- Claim C9 (amended): `WebSearchTool.search` returns a single Document —
not a sequence — whose content is the numbered concatenation of all hits
(one block per hit, with the origin URL in the text) and whose `source`
field is unset; the `web_search` step replaces `documents` with that
single Document. -/
theorem web_search_single_document (rs : List RawResult) (c : Collab)
    (st : GraphState) :
    (WebSearchTool.search rs).source = none ∧
    (WebSearchTool.search rs).content =
      String.intercalate "\n\n" (formatNumbered 1 rs) ∧
    (formatNumbered 1 rs).length = rs.length ∧
    webSearchNode c st = { st with documents := .dsingle (c.webTool st.question) } :=
  ⟨rfl, rfl, formatNumbered_length rs 1, rfl⟩

/-- Claim C10: in the agent-first topology the question is always read
from `messages[0]`; after a rewrite appends the reformulated question to
the transcript, grading and generation still call their collaborators with
the original first-message question, not the rewritten text. -/
theorem agent_first_uses_original_question (c : ACollab) (m : String) (ms : List Msg) :
    applyMsgPatch (Msg.mk m :: ms) ((rewriteA c (Msg.mk m :: ms)).getD []) =
      Msg.mk m :: (ms ++ [Msg.mk (c.rewriterLLM m)]) ∧
    questionOfA (Msg.mk m :: (ms ++ [Msg.mk (c.rewriterLLM m)])) = some m ∧
    gradeDocumentsA c (Msg.mk m :: (ms ++ [Msg.mk (c.rewriterLLM m)])) =
      some (if c.graderLLM m (c.rewriterLLM m) = "yes" then "generate" else "rewrite") ∧
    generateA c (Msg.mk m :: (ms ++ [Msg.mk (c.rewriterLLM m)])) =
      some [Msg.mk (c.ragGen (c.rewriterLLM m) m)] ∧
    (c.rewriterLLM m ≠ m →
      questionOfA (Msg.mk m :: (ms ++ [Msg.mk (c.rewriterLLM m)])) ≠
        some (c.rewriterLLM m)) := by
  have hlast : (Msg.mk m :: (ms ++ [Msg.mk (c.rewriterLLM m)])).getLast? =
      some (Msg.mk (c.rewriterLLM m)) := by
    rw [show Msg.mk m :: (ms ++ [Msg.mk (c.rewriterLLM m)]) =
      (Msg.mk m :: ms) ++ [Msg.mk (c.rewriterLLM m)] by simp]
    exact List.getLast?_concat _
  refine ⟨?_, ?_, ?_, ?_, ?_⟩
  · simp [applyMsgPatch, rewriteA, questionOfA]
  · simp [questionOfA]
  · simp [gradeDocumentsA, questionOfA, lastContentA, hlast]
  · simp [generateA, questionOfA, lastContentA, hlast]
  · intro hne
    simp [questionOfA]
    exact fun h => hne h.symm

/-- Witness for C10 at `cStub10` and original question `"orig"`: the
post-rewrite transcript's question is not the rewritten `"orig+"`. -/
theorem agent_first_uses_original_question_witness :
    questionOfA (Msg.mk "orig" :: ([] ++ [Msg.mk (cStub10.rewriterLLM "orig")])) ≠
      some (cStub10.rewriterLLM "orig") :=
  (agent_first_uses_original_question cStub10 "orig" []).2.2.2.2 (by decide)

end LG
